import Mathlib

/-!
Shallow embedding of `plugins/claude-workbench/skills/quick-descriptive-stats/analyze.py`
(a single-pass exploratory-analysis pipeline over a CSV dataset), together with
theorems settling the specification claims about it.

Modelling conventions:
* A pandas `DataFrame` is a list of named, dtype-tagged columns; each column is a
  list of nullable cells (`none` models NaN/NaT/None, i.e. what `isnull` counts).
* Machine floats are modelled by `ℚ`; the only irrational value produced by the
  code is a standard deviation / correlation denominator (a square root), which
  is interpreted into `ℝ` by an explicit valuation function.
* Python `round(x, n)` (round-half-to-even on the decimal value) is `pyRound`.
* Fallible code (file loading, rendering backends) returns `Except`.
* External collaborators (the CSV tokenizer, the date/time parser, the chart
  rendering backend) are parameters of the embedding, as the code treats them
  as black boxes.
-/

namespace QDS

/-- A non-null cell value: a float, a string, or a parsed timestamp. -/
inductive CellV where
  | num (q : ℚ)
  | str (s : String)
  | tmp (t : ℤ)
deriving DecidableEq

/-- Column dtype, as reported by pandas and used by `select_dtypes`. -/
inductive Dtype where
  | numeric
  | object
  | datetime
deriving DecidableEq

/-- One dataframe column: a name, a dtype tag, and nullable cells. -/
structure Column where
  name : String
  dtype : Dtype
  cells : List (Option CellV)
deriving DecidableEq

/-- A dataframe: an ordered sequence of columns. -/
structure DataFrame where
  cols : List Column
deriving DecidableEq

/-- `df.shape[1]`. -/
def DataFrame.ncols (df : DataFrame) : ℕ := df.cols.length

/-- `df.shape[0]` / `len(df)` (row count; all loaded columns share it). -/
def DataFrame.nrows (df : DataFrame) : ℕ :=
  match df.cols with
  | [] => 0
  | c :: _ => c.cells.length

/-- The numeric value of a cell, if it is a float (`none` otherwise). -/
def cellNum : CellV → Option ℚ
  | .num q => some q
  | _ => none

/-- The string value of a cell, if it is textual (`none` otherwise). -/
def cellStr : CellV → Option String
  | .str s => some s
  | _ => none

/-- The non-null float values of a column, in row order. -/
def colNums (c : Column) : List ℚ := c.cells.filterMap (fun oc => oc.bind cellNum)

/-- The non-null string values of a column, in row order. -/
def colStrs (c : Column) : List String := c.cells.filterMap (fun oc => oc.bind cellStr)

/-- `df[col].isnull().sum()`: how many cells of the column are null. -/
def countNullCol (c : Column) : ℕ := c.cells.countP (fun oc => oc = none)

/-- `df.select_dtypes(include="number").columns`, keeping original order. -/
def numericColumns (df : DataFrame) : List Column :=
  df.cols.filter (fun c => c.dtype = Dtype.numeric)

/-- `df.select_dtypes(include=["object"]).columns`, keeping original order. -/
def objectColumns (df : DataFrame) : List Column :=
  df.cols.filter (fun c => c.dtype = Dtype.object)

/-- Round-half-to-even to an integer (semantics of Python `round` at the
decimal level). -/
def roundHalfEven (q : ℚ) : ℤ :=
  if q - ⌊q⌋ < 1/2 then ⌊q⌋
  else if q - ⌊q⌋ > 1/2 then ⌊q⌋ + 1
  else if 2 ∣ ⌊q⌋ then ⌊q⌋ else ⌊q⌋ + 1

/-- Python `round(q, n)`: round to `n` decimal places, ties to even. -/
def pyRound (n : ℕ) (q : ℚ) : ℚ := (roundHalfEven (q * 10 ^ n) : ℚ) / 10 ^ n

/-- Per-column entry of `missing_by_column`. -/
structure MissingInfo where
  count : ℕ
  percentage : ℚ
deriving DecidableEq

/-- The dictionary returned by `analyze_data_quality`. -/
structure QualityReport where
  total_missing : ℕ
  missing_percentage : ℚ
  is_complete : Bool
  missing_by_column : List (String × MissingInfo)
deriving DecidableEq

/-- The `missing_by_column` entry one column contributes (analyze.py lines
77-84): present exactly when the column has at least one null; `r` is
`len(df)`. -/
def missingEntry (r : ℕ) (c : Column) : Option (String × MissingInfo) :=
  let colMissing := countNullCol c
  if colMissing > 0 then
    some (c.name, ⟨colMissing, pyRound 1 ((colMissing : ℚ) / (r : ℚ) * 100)⟩)
  else none

/-- `analyze_data_quality` (analyze.py lines 56-91): counts null cells,
computes the global missing percentage (0.0 when the cell grid is empty),
and records, in column order, each column having at least one null. -/
def analyzeDataQuality (df : DataFrame) : QualityReport :=
  let totalCells : ℕ := df.nrows * df.ncols
  let totalMissing : ℕ := (df.cols.map countNullCol).sum
  let missingPercentage : ℚ :=
    if totalCells > 0 then (totalMissing : ℚ) / (totalCells : ℚ) * 100 else 0
  { total_missing := totalMissing
    missing_percentage := pyRound 2 missingPercentage
    is_complete := decide (totalMissing = 0)
    missing_by_column := df.cols.filterMap (missingEntry df.nrows) }

/-- Arithmetic mean of a list of floats; NaN (`none`) on the empty list
(`describe`'s `mean` over the non-null values). -/
def meanQ (xs : List ℚ) : Option ℚ :=
  if xs.length = 0 then none else some (xs.sum / (xs.length : ℚ))

/-- Sample variance with divisor `n - 1` (pandas `std` uses `ddof=1`);
NaN (`none`) when fewer than two values. -/
def sampleVar (xs : List ℚ) : Option ℚ :=
  if xs.length < 2 then none
  else
    let m := xs.sum / (xs.length : ℚ)
    some ((xs.map (fun x => (x - m) ^ 2)).sum / ((xs.length : ℚ) - 1))

/-- `describe`'s `std`: the square root of the sample variance, as a real. -/
noncomputable def sampleStd (xs : List ℚ) : Option ℝ :=
  (sampleVar xs).map (fun v => Real.sqrt (v : ℝ))

/-- Sorted-insert into an ascending list (ascending, duplicates kept). -/
def ordInsert (x : ℚ) : List ℚ → List ℚ
  | [] => [x]
  | y :: ys => if x ≤ y then x :: y :: ys else y :: ordInsert x ys

/-- Insertion sort, ascending. -/
def sortAsc (xs : List ℚ) : List ℚ := xs.foldr ordInsert []

/-- Linear-interpolation quantile (numpy's default, used by `describe`):
`none` on the empty list. -/
def quantileQ (p : ℚ) (xs : List ℚ) : Option ℚ :=
  let s := sortAsc xs
  if s.length = 0 then none
  else
    let h : ℚ := p * ((s.length : ℚ) - 1)
    let lo : ℕ := ⌊h⌋.toNat
    let g : ℚ := h - (lo : ℚ)
    some (s.getD lo 0 + g * (s.getD (min (lo + 1) (s.length - 1)) 0 - s.getD lo 0))

/-- Minimum of a list of floats, `none` when empty. -/
def minQ (xs : List ℚ) : Option ℚ := xs.foldr (fun x acc =>
  match acc with
  | none => some x
  | some y => some (min x y)) none

/-- Maximum of a list of floats, `none` when empty. -/
def maxQ (xs : List ℚ) : Option ℚ := xs.foldr (fun x acc =>
  match acc with
  | none => some x
  | some y => some (max x y)) none

/-- One column's row of `compute_statistics` (each entry already rounded to
2 decimal places; `none` is NaN). -/
structure ColStats where
  mean : Option ℚ
  std : Option ℝ
  min : Option ℚ
  p25 : Option ℚ
  p50 : Option ℚ
  p75 : Option ℚ
  max : Option ℚ

/-- Round-half-to-even to an integer, on reals (for the std entry). -/
noncomputable def roundHalfEvenR (x : ℝ) : ℤ :=
  if x - ⌊x⌋ < 1/2 then ⌊x⌋
  else if x - ⌊x⌋ > 1/2 then ⌊x⌋ + 1
  else if 2 ∣ ⌊x⌋ then ⌊x⌋ else ⌊x⌋ + 1

/-- Python `round(x, n)` on reals. -/
noncomputable def pyRoundR (n : ℕ) (x : ℝ) : ℝ := (roundHalfEvenR (x * 10 ^ n) : ℝ) / 10 ^ n

/-- The statistics of one numeric column: `describe()` over its non-null
values, each entry rounded to 2 decimal places (analyze.py lines 110-121). -/
noncomputable def describeCol (c : Column) : ColStats :=
  let xs := colNums c
  { mean := (meanQ xs).map (pyRound 2)
    std := (sampleStd xs).map (pyRoundR 2)
    min := (minQ xs).map (pyRound 2)
    p25 := (quantileQ (1/4) xs).map (pyRound 2)
    p50 := (quantileQ (1/2) xs).map (pyRound 2)
    p75 := (quantileQ (3/4) xs).map (pyRound 2)
    max := (maxQ xs).map (pyRound 2) }

/-- `compute_statistics` (analyze.py lines 94-123): per-column summary
statistics for the numeric columns, in column order; empty when no numeric
column exists. -/
noncomputable def computeStatistics (df : DataFrame) : List (String × ColStats) :=
  (numericColumns df).map (fun c => (c.name, describeCol c))

/-- The pairwise-aligned float values of two columns: rows where both cells
are non-null floats (pandas `corr` uses pairwise complete observations). -/
def alignedPairs (xs ys : List (Option CellV)) : List (ℚ × ℚ) :=
  (xs.zip ys).filterMap (fun p =>
    match p.1.bind cellNum, p.2.bind cellNum with
    | some a, some b => some (a, b)
    | _, _ => none)

/-- One correlation entry in symbolic form: the value is
`sxy / √sprod`, where `sxy` is the centered cross product and `sprod` the
product of the two centered sums of squares.  Keeping the radicand symbolic
keeps the matrix computable. -/
structure CorrEntry where
  sxy : ℚ
  sprod : ℚ
deriving DecidableEq

/-- The real value an entry denotes. -/
noncomputable def CorrEntry.val (e : CorrEntry) : ℝ := (e.sxy : ℝ) / Real.sqrt (e.sprod : ℝ)

/-- The Pearson statistic of a list of complete pairs, in symbolic form:
NaN (`none`) when there is no pair or a zero denominator. -/
def corrFromPairs (pairs : List (ℚ × ℚ)) : Option CorrEntry :=
  if pairs.length = 0 then none
  else
    let mx : ℚ := (pairs.map Prod.fst).sum / (pairs.length : ℚ)
    let my : ℚ := (pairs.map Prod.snd).sum / (pairs.length : ℚ)
    let sxx : ℚ := (pairs.map (fun p => (p.1 - mx) ^ 2)).sum
    let syy : ℚ := (pairs.map (fun p => (p.2 - my) ^ 2)).sum
    let sxy : ℚ := (pairs.map (fun p => (p.1 - mx) * (p.2 - my))).sum
    if sxx * syy = 0 then none else some ⟨sxy, sxx * syy⟩

/-- Pearson correlation of two columns in symbolic form (pandas `nancorr`),
over their pairwise complete observations. -/
def corrStat (x y : Column) : Option CorrEntry :=
  corrFromPairs (alignedPairs x.cells y.cells)

/-- The correlation matrix of `df[numeric_cols].corr()`: labels plus the
square grid of entries, in numeric-column order. -/
structure CorrMatrix where
  names : List String
  entries : List (List (Option CorrEntry))
deriving DecidableEq

/-- One entry of the matrix (out-of-range indices give NaN). -/
def CorrMatrix.entry (m : CorrMatrix) (i j : ℕ) : Option CorrEntry :=
  (m.entries.getD i []).getD j none

/-- `analyze_correlations` (analyze.py lines 126-142): `none` (the Absent
state) when fewer than two numeric columns exist, else the Pearson matrix
over exactly the numeric columns. -/
def analyzeCorrelations (df : DataFrame) : Option CorrMatrix :=
  let numericCols := numericColumns df
  if numericCols.length < 2 then none
  else some
    { names := numericCols.map Column.name
      entries := numericCols.map (fun ci => numericCols.map (fun cj => corrStat ci cj)) }

/-- Centered sum of squares of a list (zero exactly when the column has no
variance over its non-null values). -/
def centeredSS (xs : List ℚ) : ℚ :=
  let m := xs.sum / (xs.length : ℚ)
  (xs.map (fun x => (x - m) ^ 2)).sum

/-! ### Dataset Loader -/

/-- Outcome of the external CSV tokenizer (`pd.read_csv`) on a file's
content: the empty-data condition (`pd.errors.EmptyDataError`, raised when no
column can be parsed), any other parse exception, or a dataframe. -/
inductive ParseResult where
  | emptyData
  | failure (msg : String)
  | ok (df : DataFrame)
deriving DecidableEq

/-- What the file system knows about one existing file: its byte size
(`path.stat().st_size`) and what the tokenizer does with its content. -/
structure FileInfo where
  size : ℕ
  parse : ParseResult
deriving DecidableEq

/-- The error cases of `load_csv`: `FileNotFoundError`, the
`ValueError("CSV file is empty")` case, and the
`ValueError("Failed to parse CSV file: ...")` case. -/
inductive LoadError where
  | notFound
  | empty
  | malformed (msg : String)
deriving DecidableEq

/-- `load_csv` (analyze.py lines 24-53) over an abstract file system:
missing path fails with `notFound`; a zero-byte file fails with `empty`;
the tokenizer's empty-data condition fails with `empty`; any other parse
exception fails with `malformed`; otherwise the parsed dataframe is
returned unchanged. -/
def loadCsv (fs : String → Option FileInfo) (filePath : String) :
    Except LoadError DataFrame :=
  match fs filePath with
  | none => .error .notFound
  | some f =>
    if f.size = 0 then .error .empty
    else
      match f.parse with
      | .emptyData => .error .empty
      | .failure msg => .error (.malformed msg)
      | .ok df => .ok df

/-! ### Visualization Planner -/

/-- `MAX_TIMESERIES_PLOTS` (analyze.py line 21). -/
def MAX_TIMESERIES_PLOTS : ℕ := 3
/-- `MAX_NUMERIC_PLOTS` (analyze.py line 20). -/
def MAX_NUMERIC_PLOTS : ℕ := 4
/-- `MAX_CATEGORICAL_PLOTS` (analyze.py line 19). -/
def MAX_CATEGORICAL_PLOTS : ℕ := 4
/-- `MAX_CATEGORIES_DISPLAY` (analyze.py line 18). -/
def MAX_CATEGORIES_DISPLAY : ℕ := 10

/-- Does `l` contain `pat` as a contiguous run, starting at the front? -/
def startsWithL (pat l : List Char) : Bool :=
  match pat, l with
  | [], _ => true
  | _ :: _, [] => false
  | p :: ps, c :: cs => p = c && startsWithL ps cs

/-- Does `l` contain `pat` as a contiguous run anywhere? -/
def containsL (pat l : List Char) : Bool :=
  match l with
  | [] => startsWithL pat []
  | _ :: cs => startsWithL pat l || containsL pat cs

/-- Python `pat in name.lower()` for an already-lowercase `pat`. -/
def lowerContains (pat name : String) : Bool :=
  containsL pat.toList (name.toList.map Char.toLower)

/-- `"date" in c.lower() or "time" in c.lower()` (analyze.py lines 185-188). -/
def isDateName (s : String) : Bool := lowerContains "date" s || lowerContains "time" s

/-- The timestamp value of a cell, if it is a parsed date (`none` otherwise). -/
def cellTmp : CellV → Option ℤ
  | .tmp t => some t
  | _ => none

/-- `pd.to_datetime(col, errors="coerce")`: parse every cell with the
external date parser, `none` (NaT) for nulls and unparseable cells; the
column's dtype becomes datetime. -/
def convertDateCol (parse : CellV → Option ℤ) (c : Column) : Column :=
  ⟨c.name, Dtype.datetime, c.cells.map (fun oc => (oc.bind parse).map CellV.tmp)⟩

/-- `df_copy[date_col] = pd.to_datetime(...)`: replace the column(s) of that
name by the parsed version, in place. -/
def dfWithParsedDates (parse : CellV → Option ℤ) (df : DataFrame) (dname : String) :
    DataFrame :=
  ⟨df.cols.map (fun c => if c.name = dname then convertDateCol parse c else c)⟩

/-- The date keys of a (converted) column, row by row (`none` is NaT). -/
def colKeys (c : Column) : List (Option ℤ) := c.cells.map (fun oc => oc.bind cellTmp)

/-- Insert a key into an ascending duplicate-free key list. -/
def sortedInsertZ (k : ℤ) : List ℤ → List ℤ
  | [] => [k]
  | x :: xs => if k < x then k :: x :: xs else if k = x then x :: xs else x :: sortedInsertZ k xs

/-- The group keys of `groupby(date_col)`: the distinct non-null keys in
ascending order (pandas sorts group keys and drops null keys). -/
def groupKeys (ks : List (Option ℤ)) : List ℤ :=
  (ks.filterMap id).foldl (fun acc k => sortedInsertZ k acc) []

/-- The non-null float values of rows whose key equals `k`. -/
def groupVals (keys : List (Option ℤ)) (vals : List (Option CellV)) (k : ℤ) : List ℚ :=
  (keys.zip vals).filterMap (fun p => if p.1 = some k then p.2.bind cellNum else none)

/-- `groupby(date_col)[num_col].agg(["mean", ...])["mean"]`: the per-group
mean (NaN for an all-null group), indexed by the ascending group keys. -/
def groupMeans (keys : List (Option ℤ)) (vals : List (Option CellV)) :
    List (ℤ × Option ℚ) :=
  (groupKeys keys).map (fun k => (k, meanQ (groupVals keys vals k)))

/-- The time-series artifact: its output path and one subplot per selected
numeric column, each holding the plotted (date-key, mean) series. -/
structure TSArtifact where
  path : String
  subplots : List (String × List (ℤ × Option ℚ))
deriving DecidableEq

/-- `create_time_series_plots` (analyze.py lines 171-227), as the pure plan
of what gets drawn; the external per-cell date parser is a parameter. -/
def createTimeSeriesPlots (parse : CellV → Option ℤ) (df : DataFrame)
    (outputDir : String) : List TSArtifact :=
  let dateColumns := df.cols.filter (fun c => isDateName c.name)
  match dateColumns with
  | [] => []
  | d :: _ =>
    let dfCopy := dfWithParsedDates parse df d.name
    let numericCols := numericColumns dfCopy
    if numericCols.length = 0 then []
    else
      let keys := colKeys (convertDateCol parse d)
      let nPlots := min MAX_TIMESERIES_PLOTS numericCols.length
      [⟨outputDir ++ "/time_series_analysis.png",
        (numericCols.take nPlots).map (fun c => (c.name, groupMeans keys c.cells))⟩]

/-- The distributions artifact: the four grid cells of the fixed 2-by-2
layout; a populated cell holds the column name and the non-null values that
get histogrammed, a hidden cell is `none`. -/
structure DistArtifact where
  path : String
  cells : List (Option (String × List ℚ))
deriving DecidableEq

/-- `create_distribution_plots` (analyze.py lines 230-275), as the pure plan
of what gets drawn. -/
def createDistributionPlots (df : DataFrame) (outputDir : String) : List DistArtifact :=
  let numericCols := numericColumns df
  if numericCols.length = 0 then []
  else
    let nCols := min MAX_NUMERIC_PLOTS numericCols.length
    [⟨outputDir ++ "/distributions.png",
      (numericCols.take nCols).map (fun c => some (c.name, colNums c)) ++
        List.replicate (4 - nCols) none⟩]

/-- The per-value occurrence counts of a list, one entry per distinct value. -/
def valueCountsOcc (l : List String) : List (String × ℕ) :=
  l.dedup.map (fun v => (v, l.count v))

/-- Insert into a list already sorted by descending count. -/
def insertDesc (p : String × ℕ) : List (String × ℕ) → List (String × ℕ)
  | [] => [p]
  | q :: qs => if q.2 < p.2 then p :: q :: qs else q :: insertDesc p qs

/-- Sort by descending count. -/
def sortDesc (l : List (String × ℕ)) : List (String × ℕ) := l.foldr insertDesc []

/-- `series.value_counts()`: distinct non-null values with their counts,
ordered by descending frequency. -/
def valueCounts (l : List String) : List (String × ℕ) := sortDesc (valueCountsOcc l)

/-- `value_counts().head(MAX_CATEGORIES_DISPLAY)`: the top-10 entries. -/
def topValues (l : List String) : List (String × ℕ) :=
  (valueCounts l).take MAX_CATEGORIES_DISPLAY

/-- The categorical artifact: the four grid cells of the fixed 2-by-2
layout; a populated cell holds the column name and the top-value bars in
drawn order, a hidden cell is `none`. -/
structure CatArtifact where
  path : String
  cells : List (Option (String × List (String × ℕ)))
deriving DecidableEq

/-- `create_categorical_plots` (analyze.py lines 278-325), as the pure plan
of what gets drawn: object-dtype columns whose name does not contain the
case-insensitive substring "id". -/
def createCategoricalPlots (df : DataFrame) (outputDir : String) : List CatArtifact :=
  let categoricalCols := (objectColumns df).filter (fun c => !(lowerContains "id" c.name))
  if categoricalCols.length = 0 then []
  else
    let nCols := min MAX_CATEGORICAL_PLOTS categoricalCols.length
    [⟨outputDir ++ "/categorical_distributions.png",
      (categoricalCols.take nCols).map (fun c => some (c.name, topValues (colStrs c))) ++
        List.replicate (4 - nCols) none⟩]

/-! ### Orchestrator -/

/-- What one call into the rendering backend is asked to draw. -/
inductive ChartSpec where
  | heatmap (path : String) (m : CorrMatrix)
  | timeSeries (a : TSArtifact)
  | distributions (a : DistArtifact)
  | categorical (a : CatArtifact)
deriving DecidableEq

/-- The output path of a chart. -/
def ChartSpec.path : ChartSpec → String
  | .heatmap p _ => p
  | .timeSeries a => a.path
  | .distributions a => a.path
  | .categorical a => a.path

/-- The heatmap branch of `summarize_csv` (analyze.py lines 447-450):
fires exactly when the correlation matrix is present. -/
def heatmapPlan (df : DataFrame) (outputDir : String) : List ChartSpec :=
  match analyzeCorrelations df with
  | some m => [.heatmap (outputDir ++ "/correlation_heatmap.png") m]
  | none => []

/-- The time-series branch as chart requests. -/
def tsPlan (parse : CellV → Option ℤ) (df : DataFrame) (outputDir : String) :
    List ChartSpec :=
  (createTimeSeriesPlots parse df outputDir).map ChartSpec.timeSeries

/-- The distributions branch as chart requests. -/
def distPlan (df : DataFrame) (outputDir : String) : List ChartSpec :=
  (createDistributionPlots df outputDir).map ChartSpec.distributions

/-- The categorical branch as chart requests. -/
def catPlan (df : DataFrame) (outputDir : String) : List ChartSpec :=
  (createCategoricalPlots df outputDir).map ChartSpec.categorical

/-- All chart requests of one run, in the order `summarize_csv` issues them. -/
def allPlans (parse : CellV → Option ℤ) (df : DataFrame) (outputDir : String) :
    List ChartSpec :=
  heatmapPlan df outputDir ++ tsPlan parse df outputDir ++
    distPlan df outputDir ++ catPlan df outputDir

/-- Render a branch's chart requests in order, collecting the artifact
paths; a backend failure propagates immediately (there is no exception
handling around the `create_*` calls in `summarize_csv`). -/
def renderSpecs {ε : Type} (render : ChartSpec → Except ε Unit) :
    List ChartSpec → Except ε (List String)
  | [] => .ok []
  | s :: rest =>
    match render s with
    | .error e => .error e
    | .ok _ =>
      match renderSpecs render rest with
      | .error e => .error e
      | .ok ps => .ok (s.path :: ps)

/-- How a run of `summarize_csv` can fail: a loader error, or an uncaught
rendering-backend exception escaping a visualization branch. -/
inductive PipeError (ε : Type) where
  | load (e : LoadError)
  | render (e : ε)
deriving DecidableEq

/-- Everything `format_summary_report` is given; the final report string is
a total, pure function of this record, so a run completes exactly when this
record is produced. -/
structure Report where
  quality : QualityReport
  stats : List (String × ColStats)
  corr : Option CorrMatrix
  charts : List String

/-- The visualization stage of `summarize_csv` (analyze.py lines 444-459):
run the four branches in order, appending each branch's artifact paths.
Exactly as in the source, no exception from a branch is caught. -/
def runCharts {ε : Type} (render : ChartSpec → Except ε Unit)
    (parse : CellV → Option ℤ) (df : DataFrame) (outputDir : String) :
    Except ε (List String) :=
  match renderSpecs render (heatmapPlan df outputDir) with
  | .error e => .error e
  | .ok c1 =>
    match renderSpecs render (tsPlan parse df outputDir) with
    | .error e => .error e
    | .ok c2 =>
      match renderSpecs render (distPlan df outputDir) with
      | .error e => .error e
      | .ok c3 =>
        match renderSpecs render (catPlan df outputDir) with
        | .error e => .error e
        | .ok c4 => .ok (c1 ++ c2 ++ c3 ++ c4)

/-- `summarize_csv` (analyze.py lines 414-462): load, analyze, visualize,
report.  A loader failure propagates as such; an uncaught rendering failure
propagates out of the visualization stage and no report is produced. -/
noncomputable def summarizeCsv {ε : Type} (fs : String → Option FileInfo)
    (render : ChartSpec → Except ε Unit) (parse : CellV → Option ℤ)
    (filePath outputDir : String) : Except (PipeError ε) Report :=
  match loadCsv fs filePath with
  | .error e => .error (.load e)
  | .ok df =>
    match runCharts render parse df outputDir with
    | .error e => .error (.render e)
    | .ok cs =>
      .ok ⟨analyzeDataQuality df, computeStatistics df,
        analyzeCorrelations df, cs⟩

/-! ## Helper lemmas -/

theorem pyRound_zero (n : ℕ) : pyRound n 0 = 0 := by
  simp [pyRound, roundHalfEven]

theorem sum_missingEntries (r : ℕ) (cols : List Column) :
    ((cols.filterMap (missingEntry r)).map (fun p => p.2.count)).sum =
      (cols.map countNullCol).sum := by
  induction cols with
  | nil => rfl
  | cons c cs ih =>
    by_cases h : countNullCol c > 0
    · simp [missingEntry, h, ih]
    · have h0 : countNullCol c = 0 := by omega
      simp [missingEntry, h, ih, h0]

theorem missingEntry_eq_some {r : ℕ} {c : Column} {p : String × MissingInfo} :
    missingEntry r c = some p ↔
      0 < countNullCol c ∧
        p = (c.name, ⟨countNullCol c, pyRound 1 ((countNullCol c : ℚ) / (r : ℚ) * 100)⟩) := by
  unfold missingEntry
  by_cases h : 0 < countNullCol c <;> simp [h, eq_comm]

/-! ## Claims about the Quality Analyzer -/

/-- C4: for every dataset (with distinct column names), the quality report
satisfies `is_complete ↔ total_missing = 0`; a column appears in
`missing_by_column` iff its missing count is positive; and the per-column
counts in `missing_by_column` sum to `total_missing`. -/
theorem c4_quality_invariants (df : DataFrame)
    (hnd : (df.cols.map Column.name).Nodup) :
    ((analyzeDataQuality df).is_complete = true ↔
      (analyzeDataQuality df).total_missing = 0) ∧
    (∀ c ∈ df.cols,
      ((∃ info, (c.name, info) ∈ (analyzeDataQuality df).missing_by_column) ↔
        0 < countNullCol c)) ∧
    ((analyzeDataQuality df).missing_by_column.map (fun p => p.2.count)).sum =
      (analyzeDataQuality df).total_missing := by
  refine ⟨by simp [analyzeDataQuality], ?_, sum_missingEntries _ _⟩
  intro c hc
  constructor
  · rintro ⟨info, hmem⟩
    have hmem' : (c.name, info) ∈ df.cols.filterMap (missingEntry df.nrows) := hmem
    rw [List.mem_filterMap] at hmem'
    obtain ⟨c', hc', he⟩ := hmem'
    rw [missingEntry_eq_some] at he
    obtain ⟨hpos, hp⟩ := he
    have hname : c'.name = c.name := by
      have := congrArg Prod.fst hp
      simpa using this.symm
    have hcc : c' = c := List.inj_on_of_nodup_map hnd hc' hc hname
    rwa [hcc] at hpos
  · intro hpos
    exact ⟨_, List.mem_filterMap.mpr ⟨c, hc, missingEntry_eq_some.mpr ⟨hpos, rfl⟩⟩⟩

/-- Witness for C4 at a concrete two-column dataset with one missing cell. -/
theorem c4_quality_invariants_witness :
    ((analyzeDataQuality (DataFrame.mk
        [⟨"a", .numeric, [some (.num 1), none]⟩,
         ⟨"b", .object, [some (.str "u"), some (.str "v")]⟩])).is_complete = true ↔
      (analyzeDataQuality (DataFrame.mk
        [⟨"a", .numeric, [some (.num 1), none]⟩,
         ⟨"b", .object, [some (.str "u"), some (.str "v")]⟩])).total_missing = 0) ∧
    (∃ info, ("a", info) ∈ (analyzeDataQuality (DataFrame.mk
        [⟨"a", .numeric, [some (.num 1), none]⟩,
         ⟨"b", .object, [some (.str "u"), some (.str "v")]⟩])).missing_by_column) := by
  obtain ⟨h1, h2, _⟩ := c4_quality_invariants (DataFrame.mk
    [⟨"a", .numeric, [some (.num 1), none]⟩,
     ⟨"b", .object, [some (.str "u"), some (.str "v")]⟩]) (by decide)
  exact ⟨h1, (h2 ⟨"a", .numeric, [some (.num 1), none]⟩ (by decide)).mpr (by decide)⟩

/-- C5: the global missing percentage is `total/(rows*cols)*100` rounded to
2 decimal places, with the defined value 0 when the cell grid is empty (no
division happens), and each per-column percentage is `missing/rows*100`
rounded to 1 decimal place. -/
theorem c5_missing_percentages (df : DataFrame) :
    (df.nrows * df.ncols = 0 → (analyzeDataQuality df).missing_percentage = 0) ∧
    (df.nrows * df.ncols ≠ 0 →
      (analyzeDataQuality df).missing_percentage =
        pyRound 2 (((analyzeDataQuality df).total_missing : ℚ) /
          ((df.nrows * df.ncols : ℕ) : ℚ) * 100)) ∧
    (∀ p ∈ (analyzeDataQuality df).missing_by_column, ∃ c ∈ df.cols,
      p.1 = c.name ∧ p.2.count = countNullCol c ∧
      p.2.percentage = pyRound 1 ((countNullCol c : ℚ) / (df.nrows : ℚ) * 100)) := by
  refine ⟨?_, ?_, ?_⟩
  · intro h
    simp [analyzeDataQuality, h, pyRound_zero]
  · intro h
    have hpos : 0 < df.nrows * df.ncols := Nat.pos_of_ne_zero h
    simp [analyzeDataQuality, hpos]
  · intro p hp
    have hp' : p ∈ df.cols.filterMap (missingEntry df.nrows) := hp
    rw [List.mem_filterMap] at hp'
    obtain ⟨c, hc, he⟩ := hp'
    rw [missingEntry_eq_some] at he
    obtain ⟨hpos, hpe⟩ := he
    exact ⟨c, hc, by rw [hpe], by rw [hpe], by rw [hpe]⟩

/-- Witness for C5 at a concrete dataset with a nonempty cell grid. -/
theorem c5_missing_percentages_witness :
    (analyzeDataQuality (DataFrame.mk
        [⟨"a", .numeric, [some (.num 1), none]⟩,
         ⟨"b", .object, [some (.str "u"), some (.str "v")]⟩])).missing_percentage =
      pyRound 2 (((analyzeDataQuality (DataFrame.mk
        [⟨"a", .numeric, [some (.num 1), none]⟩,
         ⟨"b", .object, [some (.str "u"), some (.str "v")]⟩])).total_missing : ℚ) /
          (((DataFrame.mk
        [⟨"a", .numeric, [some (.num 1), none]⟩,
         ⟨"b", .object, [some (.str "u"), some (.str "v")]⟩]).nrows *
           (DataFrame.mk
        [⟨"a", .numeric, [some (.num 1), none]⟩,
         ⟨"b", .object, [some (.str "u"), some (.str "v")]⟩]).ncols : ℕ) : ℚ) * 100) :=
  (c5_missing_percentages _).2.1 (by decide)

/-! ## Claims about the Dataset Loader -/

/-- C2 (amended): `load_csv` fails with the not-found error iff the path
does not exist; with the empty-input error iff the file has zero bytes or
the tokenizer reports its empty-data condition; with the malformed-input
error iff the tokenizer fails otherwise; and else returns the parsed
dataframe unchanged. -/
theorem c2_load_characterization (fs : String → Option FileInfo) (p : String) :
    (loadCsv fs p = .error .notFound ↔ fs p = none) ∧
    (loadCsv fs p = .error .empty ↔
      ∃ f, fs p = some f ∧ (f.size = 0 ∨ f.parse = .emptyData)) ∧
    (∀ msg, loadCsv fs p = .error (.malformed msg) ↔
      ∃ f, fs p = some f ∧ f.size ≠ 0 ∧ f.parse = .failure msg) ∧
    (∀ df, loadCsv fs p = .ok df ↔
      ∃ f, fs p = some f ∧ f.size ≠ 0 ∧ f.parse = .ok df) := by
  cases hf : fs p with
  | none => simp [loadCsv, hf]
  | some f =>
    by_cases hs : f.size = 0
    · cases hp : f.parse <;> simp [loadCsv, hf, hs, hp]
    · cases hp : f.parse <;> simp [loadCsv, hf, hs, hp]

/-- C2 counterexample: a 4-byte file that tokenizes to a dataframe with two
columns and zero rows (a header-only CSV, as pandas produces for "a,b\n")
is returned as-is by `load_csv`, not rejected with the empty-input error,
although it "parses to zero rows". -/
theorem c2_counterexample :
    (fun q => if q = "data.csv" then
        some (FileInfo.mk 4 (.ok ⟨[⟨"a", .object, []⟩, ⟨"b", .object, []⟩]⟩))
      else none) "data.csv" =
      some (FileInfo.mk 4 (.ok ⟨[⟨"a", .object, []⟩, ⟨"b", .object, []⟩]⟩)) ∧
    (DataFrame.mk [⟨"a", .object, []⟩, ⟨"b", .object, []⟩]).nrows = 0 ∧
    loadCsv (fun q => if q = "data.csv" then
        some (FileInfo.mk 4 (.ok ⟨[⟨"a", .object, []⟩, ⟨"b", .object, []⟩]⟩))
      else none) "data.csv" =
      .ok ⟨[⟨"a", .object, []⟩, ⟨"b", .object, []⟩]⟩ :=
  ⟨rfl, rfl, rfl⟩

/-! ## Claims about the Correlation Analyzer -/

theorem matrix_entry_eq (cols : List Column) {i j : ℕ} {ci cj : Column}
    (hi : cols[i]? = some ci) (hj : cols[j]? = some cj) :
    ((cols.map (fun a => cols.map (fun b => corrStat a b))).getD i []).getD j none =
      corrStat ci cj := by
  simp [List.getD_eq_getElem?_getD, List.getElem?_map, hi, hj]

/-- C3: `analyze_correlations` returns the distinct Absent state (`none`)
exactly when the dataset has fewer than 2 numeric columns; when it returns
a matrix, the matrix is labelled by exactly the numeric columns and its
entries are the pairwise Pearson statistics of those columns. -/
theorem c3_correlations_absent (df : DataFrame) :
    (analyzeCorrelations df = none ↔ (numericColumns df).length < 2) ∧
    (∀ m, analyzeCorrelations df = some m →
      m.names = (numericColumns df).map Column.name ∧
      ∀ i j ci cj, (numericColumns df)[i]? = some ci →
        (numericColumns df)[j]? = some cj →
        m.entry i j = corrStat ci cj) := by
  by_cases h : (numericColumns df).length < 2
  · constructor
    · simp [analyzeCorrelations, h]
    · intro m hm
      rw [show analyzeCorrelations df = none by simp [analyzeCorrelations, h]] at hm
      exact absurd hm (by simp)
  · constructor
    · simp [analyzeCorrelations, h]
    · intro m hm
      rw [show analyzeCorrelations df =
          some ⟨(numericColumns df).map Column.name,
            (numericColumns df).map (fun a => (numericColumns df).map
              (fun b => corrStat a b))⟩ by simp [analyzeCorrelations, h]] at hm
      obtain rfl : m = _ := (Option.some_inj.mp hm).symm
      refine ⟨rfl, ?_⟩
      intro i j ci cj hi hj
      exact matrix_entry_eq _ hi hj

/-- Witness for C3 at a dataset with two numeric columns. -/
theorem c3_correlations_absent_witness :
    analyzeCorrelations (DataFrame.mk
      [⟨"a", .numeric, [some (.num 1), some (.num 2)]⟩,
       ⟨"b", .numeric, [some (.num 2), some (.num 4)]⟩]) ≠ none ∧
    ∀ m, analyzeCorrelations (DataFrame.mk
      [⟨"a", .numeric, [some (.num 1), some (.num 2)]⟩,
       ⟨"b", .numeric, [some (.num 2), some (.num 4)]⟩]) = some m →
      m.names = ["a", "b"] := by
  obtain ⟨h1, h2⟩ := c3_correlations_absent (DataFrame.mk
    [⟨"a", .numeric, [some (.num 1), some (.num 2)]⟩,
     ⟨"b", .numeric, [some (.num 2), some (.num 4)]⟩])
  refine ⟨fun hn => absurd (h1.mp hn) (by decide), fun m hm => ?_⟩
  rw [(h2 m hm).1]
  rfl

/-! ## Claims about the Statistics Engine -/

/-- C9: a numeric column whose cells are all null contributes a statistics
row whose every entry is the undefined value (`none`, modelling NaN);
`compute_statistics` is a total function, so no exception is raised. -/
theorem c9_all_null_stats (df : DataFrame) (c : Column) (hc : c ∈ df.cols)
    (hdt : c.dtype = Dtype.numeric) (hnull : ∀ oc ∈ c.cells, oc = none) :
    (c.name, ColStats.mk none none none none none none none) ∈ computeStatistics df := by
  have hmem : c ∈ numericColumns df := by
    rw [numericColumns, List.mem_filter]
    exact ⟨hc, by simp [hdt]⟩
  have hnums : colNums c = [] := by
    rw [colNums, List.filterMap_eq_nil_iff]
    intro oc hoc
    rw [hnull oc hoc]
    rfl
  have hstats : describeCol c = ColStats.mk none none none none none none none := by
    rw [describeCol, hnums]
    rfl
  rw [computeStatistics]
  exact List.mem_map.mpr ⟨c, hmem, by rw [hstats]⟩

/-- Witness for C9 at a dataset with one all-null numeric column. -/
theorem c9_all_null_stats_witness :
    ("x", ColStats.mk none none none none none none none) ∈
      computeStatistics (DataFrame.mk [⟨"x", .numeric, [none, none]⟩]) :=
  c9_all_null_stats _ ⟨"x", .numeric, [none, none]⟩ (by decide) rfl (by decide)

/-- A numeric column holding the single non-null value 0.567. -/
def singleValCol : Column := ⟨"x", .numeric, [some (.num (567/1000))]⟩

/-- A dataset whose only column is `singleValCol`. -/
def singleValDf : DataFrame := ⟨[singleValCol]⟩

/-- C10 counterexample: a numeric column holding the single value 0.567 gets
`mean`, `min` and `max` 0.57 (the rounding to 2 decimal places that
`compute_statistics` applies), not the value itself, refuting the claim
that they equal the single value. -/
theorem c10_counterexample :
    (computeStatistics singleValDf).map (fun p => (p.1, p.2.mean, p.2.min, p.2.max)) =
      [("x", some ((57 : ℚ)/100), some ((57 : ℚ)/100), some ((57 : ℚ)/100))] ∧
    ((57 : ℚ)/100) ≠ 567/1000 := by
  have h0 : computeStatistics singleValDf = [("x", describeCol singleValCol)] := rfl
  have hnums : colNums singleValCol = [567/1000] := rfl
  have hv : pyRound 2 ((567 : ℚ)/1000) = 57/100 := by
    norm_num [pyRound, roundHalfEven]
  have hmean : meanQ [(567 : ℚ)/1000] = some (567/1000) := by
    norm_num [meanQ]
  constructor
  · rw [h0]
    simp [describeCol, hnums, hmean, hv, minQ, maxQ]
  · norm_num

/-- C10 (amended): for a numeric column with exactly one non-null value
`v`, the sample standard deviation (divisor `n - 1`) is the undefined
value, while mean, min, max and all quantiles equal `v` rounded to two
decimal places. -/
theorem c10_single_value_stats (df : DataFrame) (c : Column) (v : ℚ)
    (hc : c ∈ df.cols) (hdt : c.dtype = Dtype.numeric)
    (hone : colNums c = [v]) :
    (c.name, ColStats.mk (some (pyRound 2 v)) none (some (pyRound 2 v))
      (some (pyRound 2 v)) (some (pyRound 2 v)) (some (pyRound 2 v))
      (some (pyRound 2 v))) ∈ computeStatistics df := by
  have hmem : c ∈ numericColumns df := by
    rw [numericColumns, List.mem_filter]
    exact ⟨hc, by simp [hdt]⟩
  have hquant : ∀ p : ℚ, quantileQ p [v] = some v := by
    intro p
    rw [quantileQ]
    norm_num [sortAsc, ordInsert]
  have hstats : describeCol c = ColStats.mk (some (pyRound 2 v)) none
      (some (pyRound 2 v)) (some (pyRound 2 v)) (some (pyRound 2 v))
      (some (pyRound 2 v)) (some (pyRound 2 v)) := by
    rw [describeCol, hone]
    have hm : meanQ [v] = some v := by
      rw [meanQ]
      norm_num
    have hs : sampleVar [v] = none := by
      rw [sampleVar]
      norm_num
    simp [hm, hs, hquant, sampleStd, minQ, maxQ]
  rw [computeStatistics]
  exact List.mem_map.mpr ⟨c, hmem, by rw [hstats]⟩

/-- Witness for the amended C10 at a single-value column holding 0.567. -/
theorem c10_single_value_stats_witness :
    ("x", ColStats.mk (some (pyRound 2 (567/1000))) none
      (some (pyRound 2 (567/1000))) (some (pyRound 2 (567/1000)))
      (some (pyRound 2 (567/1000))) (some (pyRound 2 (567/1000)))
      (some (pyRound 2 (567/1000)))) ∈ computeStatistics singleValDf :=
  c10_single_value_stats singleValDf singleValCol (567/1000)
    (List.Mem.head _) rfl rfl

/-! ## Value-count lemmas (Categorical branch) -/

theorem mem_insertDesc {p q : String × ℕ} {l : List (String × ℕ)} :
    q ∈ insertDesc p l ↔ q = p ∨ q ∈ l := by
  induction l with
  | nil => simp [insertDesc]
  | cons r rs ih =>
    rw [insertDesc]
    by_cases h : r.2 < p.2
    · simp [h]
    · simp [h, ih]
      tauto

theorem pairwise_insertDesc {p : String × ℕ} {l : List (String × ℕ)}
    (hl : l.Pairwise (fun a b => b.2 ≤ a.2)) :
    (insertDesc p l).Pairwise (fun a b => b.2 ≤ a.2) := by
  induction l with
  | nil => simp [insertDesc]
  | cons r rs ih =>
    rw [List.pairwise_cons] at hl
    obtain ⟨hr, hrs⟩ := hl
    rw [insertDesc]
    by_cases h : r.2 < p.2
    · rw [if_pos h]
      refine List.Pairwise.cons ?_ (List.Pairwise.cons hr hrs)
      intro b hb
      rcases List.mem_cons.mp hb with rfl | hb
      · exact le_of_lt h
      · exact le_trans (hr b hb) (le_of_lt h)
    · rw [if_neg h]
      refine List.Pairwise.cons ?_ (ih hrs)
      intro b hb
      rcases mem_insertDesc.mp hb with rfl | hb
      · exact le_of_not_lt h
      · exact hr b hb

theorem length_insertDesc (p : String × ℕ) (l : List (String × ℕ)) :
    (insertDesc p l).length = l.length + 1 := by
  induction l with
  | nil => rfl
  | cons r rs ih =>
    rw [insertDesc]
    by_cases h : r.2 < p.2
    · simp [h]
    · simp [h, ih]

theorem pairwise_sortDesc (l : List (String × ℕ)) :
    (sortDesc l).Pairwise (fun a b => b.2 ≤ a.2) := by
  induction l with
  | nil => simp [sortDesc]
  | cons p ps ih => exact pairwise_insertDesc ih

theorem mem_sortDesc {q : String × ℕ} {l : List (String × ℕ)} :
    q ∈ sortDesc l ↔ q ∈ l := by
  induction l with
  | nil => simp [sortDesc]
  | cons p ps ih =>
    show q ∈ insertDesc p (sortDesc ps) ↔ _
    rw [mem_insertDesc, ih]
    simp

theorem length_sortDesc (l : List (String × ℕ)) : (sortDesc l).length = l.length := by
  induction l with
  | nil => rfl
  | cons p ps ih =>
    show (insertDesc p (sortDesc ps)).length = _
    rw [length_insertDesc, ih]
    rfl

theorem mem_valueCounts {l : List String} {p : String × ℕ} :
    p ∈ valueCounts l ↔ p.1 ∈ l ∧ p.2 = l.count p.1 := by
  rw [valueCounts, mem_sortDesc, valueCountsOcc, List.mem_map]
  constructor
  · rintro ⟨v, hv, rfl⟩
    exact ⟨List.mem_dedup.mp hv, rfl⟩
  · rintro ⟨h1, h2⟩
    exact ⟨p.1, List.mem_dedup.mpr h1, by rw [← h2]⟩

theorem length_valueCounts (l : List String) :
    (valueCounts l).length = l.dedup.length := by
  rw [valueCounts, length_sortDesc, valueCountsOcc, List.length_map]

theorem pairwise_valueCounts (l : List String) :
    (valueCounts l).Pairwise (fun a b => b.2 ≤ a.2) :=
  pairwise_sortDesc _

theorem topValues_pairwise (l : List String) :
    (topValues l).Pairwise (fun a b => b.2 ≤ a.2) :=
  List.Pairwise.sublist (List.take_sublist _ _) (pairwise_valueCounts l)

theorem topValues_length (l : List String) :
    (topValues l).length = min 10 l.dedup.length := by
  rw [topValues, List.length_take, length_valueCounts]
  rfl

theorem topValues_counts {l : List String} {p : String × ℕ} (hp : p ∈ topValues l) :
    p.1 ∈ l ∧ p.2 = l.count p.1 :=
  mem_valueCounts.mp (List.mem_of_mem_take hp)

theorem topValues_top {l : List String} {v : String} (hv : v ∈ l)
    (hout : ∀ p ∈ topValues l, p.1 ≠ v) :
    ∀ p ∈ topValues l, l.count v ≤ p.2 := by
  intro p hp
  have hvmem : (v, l.count v) ∈ valueCounts l := mem_valueCounts.mpr ⟨hv, rfl⟩
  have hsplit := List.take_append_drop MAX_CATEGORIES_DISPLAY (valueCounts l)
  have hpair := pairwise_valueCounts l
  rw [← hsplit, List.pairwise_append] at hpair
  have hdrop : (v, l.count v) ∈ (valueCounts l).drop MAX_CATEGORIES_DISPLAY := by
    rw [← hsplit] at hvmem
    rcases List.mem_append.mp hvmem with hin | hin
    · exact absurd rfl (hout _ hin)
    · exact hin
  exact hpair.2.2 p hp (v, l.count v) hdrop

/-- C8: `create_categorical_plots` considers exactly the object-dtype
columns whose name does not contain the case-insensitive substring "id".
It emits nothing when no such column exists; otherwise it emits exactly one
artifact in the fixed 2-by-2 layout whose first `min 4 k` grid cells are
populated by the first up-to-4 qualifying columns in original column order,
each showing that column's top-10 most frequent values ordered by
descending frequency (with correct counts, and every shown count at least
the count of any value left out), and whose remaining grid cells are
hidden. -/
theorem c8_categorical_plots (df : DataFrame) (outputDir : String) :
    ((objectColumns df).filter (fun c => !(lowerContains "id" c.name)) = [] →
      createCategoricalPlots df outputDir = []) ∧
    (∀ q qs,
      (objectColumns df).filter (fun c => !(lowerContains "id" c.name)) = q :: qs →
      ∃ a, createCategoricalPlots df outputDir = [a] ∧
        a.path = outputDir ++ "/categorical_distributions.png" ∧
        a.cells.length = 4 ∧
        (∀ i c, (q :: qs)[i]? = some c → i < 4 →
          ∃ tv, a.cells[i]? = some (some (c.name, tv)) ∧
            tv.Pairwise (fun x y => y.2 ≤ x.2) ∧
            tv.length = min 10 (colStrs c).dedup.length ∧
            (∀ p ∈ tv, p.1 ∈ colStrs c ∧ p.2 = (colStrs c).count p.1) ∧
            (∀ v ∈ colStrs c, (∀ p ∈ tv, p.1 ≠ v) →
              ∀ p ∈ tv, (colStrs c).count v ≤ p.2)) ∧
        (∀ i, (q :: qs).length ≤ i → i < 4 → a.cells[i]? = some none)) := by
  constructor
  · intro h
    simp [createCategoricalPlots, h]
  · intro q qs hq
    have hart : createCategoricalPlots df outputDir =
        [⟨outputDir ++ "/categorical_distributions.png",
          ((q :: qs).take (min MAX_CATEGORICAL_PLOTS (q :: qs).length)).map
            (fun c => some (c.name, topValues (colStrs c))) ++
          List.replicate (4 - min MAX_CATEGORICAL_PLOTS (q :: qs).length) none⟩] := by
      rw [createCategoricalPlots, hq]
      simp
    have hn4 : min MAX_CATEGORICAL_PLOTS (q :: qs).length ≤ 4 := min_le_left _ _
    have hnL : min MAX_CATEGORICAL_PLOTS (q :: qs).length ≤ (q :: qs).length :=
      min_le_right _ _
    have hlen_take : (((q :: qs).take (min MAX_CATEGORICAL_PLOTS (q :: qs).length)).map
        (fun c => some (c.name, topValues (colStrs c)))).length =
          min MAX_CATEGORICAL_PLOTS (q :: qs).length := by
      rw [List.length_map, List.length_take]
      omega
    refine ⟨_, hart, rfl, ?_, ?_, ?_⟩
    · rw [List.length_append, hlen_take, List.length_replicate]
      omega
    · intro i c hi hi4
      have hiL : i < (q :: qs).length := by
        by_contra hcon
        push_neg at hcon
        rw [List.getElem?_eq_none hcon] at hi
        exact absurd hi (by simp)
      have hmin : min MAX_CATEGORICAL_PLOTS (q :: qs).length =
          min 4 (q :: qs).length := rfl
      have hin : i < min MAX_CATEGORICAL_PLOTS (q :: qs).length := by omega
      refine ⟨topValues (colStrs c), ?_, topValues_pairwise _, topValues_length _,
        fun p hp => topValues_counts hp, fun v hv hout => topValues_top hv hout⟩
      rw [List.getElem?_append, if_pos (by omega), List.getElem?_map,
        List.getElem?_take, if_pos hin, hi]
      rfl
    · intro i hiL hi4
      have hmin : min MAX_CATEGORICAL_PLOTS (q :: qs).length =
          min 4 (q :: qs).length := rfl
      rw [List.getElem?_append, if_neg (by omega), hlen_take,
        List.getElem?_replicate, if_pos (by omega)]

/-- Witness for C8: a dataset with a text `customer_id` column and a text
`status` column; only `status` is charted, and grid cell 1 is hidden. -/
theorem c8_categorical_plots_witness :
    ((createCategoricalPlots (DataFrame.mk
        [⟨"customer_id", .object, [some (.str "c1"), some (.str "c2")]⟩,
         ⟨"status", .object, [some (.str "open"), some (.str "open")]⟩]) "out").map
      CatArtifact.path) = ["out/categorical_distributions.png"] ∧
    ((createCategoricalPlots (DataFrame.mk
        [⟨"customer_id", .object, [some (.str "c1"), some (.str "c2")]⟩,
         ⟨"status", .object, [some (.str "open"), some (.str "open")]⟩]) "out").map
      (fun a => a.cells[1]?)) = [some none] := by
  obtain ⟨a, ha, hpath, hlen, hpop, hhid⟩ :=
    (c8_categorical_plots (DataFrame.mk
        [⟨"customer_id", .object, [some (.str "c1"), some (.str "c2")]⟩,
         ⟨"status", .object, [some (.str "open"), some (.str "open")]⟩]) "out").2
      ⟨"status", .object, [some (.str "open"), some (.str "open")]⟩ [] rfl
  rw [ha]
  simp [hpath, hhid 1 (by simp) (by omega)]

/-! ## Group-key lemmas (Time-series branch) -/

theorem mem_sortedInsertZ {k a : ℤ} {l : List ℤ} :
    a ∈ sortedInsertZ k l ↔ a = k ∨ a ∈ l := by
  induction l with
  | nil => simp [sortedInsertZ]
  | cons x xs ih =>
    rw [sortedInsertZ]
    by_cases h1 : k < x
    · simp [h1]
    · by_cases h2 : k = x
      · subst h2
        simp [h1]
      · simp [h1, h2, ih]
        tauto

theorem pairwise_sortedInsertZ {k : ℤ} {l : List ℤ}
    (hl : l.Pairwise (· < ·)) : (sortedInsertZ k l).Pairwise (· < ·) := by
  induction l with
  | nil => simp [sortedInsertZ]
  | cons x xs ih =>
    rw [List.pairwise_cons] at hl
    obtain ⟨hx, hxs⟩ := hl
    rw [sortedInsertZ]
    by_cases h1 : k < x
    · rw [if_pos h1]
      refine List.Pairwise.cons ?_ (List.Pairwise.cons hx hxs)
      intro b hb
      rcases List.mem_cons.mp hb with rfl | hb
      · exact h1
      · exact lt_trans h1 (hx b hb)
    · rw [if_neg h1]
      by_cases h2 : k = x
      · rw [if_pos h2]
        exact List.Pairwise.cons hx hxs
      · rw [if_neg h2]
        refine List.Pairwise.cons ?_ (ih hxs)
        intro b hb
        rcases mem_sortedInsertZ.mp hb with rfl | hb
        · exact lt_of_le_of_ne (le_of_not_lt h1) (Ne.symm h2)
        · exact hx b hb

theorem groupKeys_aux_pairwise (ks : List ℤ) (acc : List ℤ)
    (hacc : acc.Pairwise (· < ·)) :
    (ks.foldl (fun a k => sortedInsertZ k a) acc).Pairwise (· < ·) := by
  induction ks generalizing acc with
  | nil => exact hacc
  | cons k ks ih => exact ih _ (pairwise_sortedInsertZ hacc)

theorem groupKeys_pairwise (ks : List (Option ℤ)) :
    (groupKeys ks).Pairwise (· < ·) :=
  groupKeys_aux_pairwise _ _ List.Pairwise.nil

theorem groupKeys_aux_mem (ks : List ℤ) (acc : List ℤ) (a : ℤ) :
    a ∈ ks.foldl (fun acc k => sortedInsertZ k acc) acc ↔ a ∈ ks ∨ a ∈ acc := by
  induction ks generalizing acc with
  | nil => simp
  | cons k ks ih =>
    rw [List.foldl_cons, ih, mem_sortedInsertZ]
    simp
    tauto

theorem mem_groupKeys {ks : List (Option ℤ)} {a : ℤ} :
    a ∈ groupKeys ks ↔ some a ∈ ks := by
  rw [groupKeys, groupKeys_aux_mem]
  simp

theorem head_filter_eq_find {α : Type} (p : α → Bool) (l : List α) :
    (l.filter p).head? = l.find? p := by
  induction l with
  | nil => rfl
  | cons x xs ih =>
    rw [List.filter_cons]
    by_cases h : p x <;> simp [h, ih]

theorem groupMeans_keys (ks : List (Option ℤ)) (vals : List (Option CellV)) :
    (groupMeans ks vals).map Prod.fst = groupKeys ks := by
  rw [groupMeans, List.map_map]
  exact List.map_id _

/-- C7: `create_time_series_plots` scans column names case-insensitively
for "date"/"time" and emits nothing when none match; otherwise it takes the
first matching column, parses each of its cells (unparseable cells become
null), emits nothing if no numeric columns remain after the conversion, and
otherwise emits exactly one artifact holding one subplot per column for the
first up-to-3 remaining numeric columns in original order, each plotting
the per-date-group mean with points in strictly ascending date order, the
plotted groups being exactly the dates that parsed. -/
theorem c7_time_series_plots (parse : CellV → Option ℤ) (df : DataFrame)
    (outputDir : String) :
    (df.cols.find? (fun c => isDateName c.name) = none →
      createTimeSeriesPlots parse df outputDir = []) ∧
    (∀ d, df.cols.find? (fun c => isDateName c.name) = some d →
      (numericColumns (dfWithParsedDates parse df d.name) = [] →
        createTimeSeriesPlots parse df outputDir = []) ∧
      (∀ nc ncs, numericColumns (dfWithParsedDates parse df d.name) = nc :: ncs →
        ∃ a, createTimeSeriesPlots parse df outputDir = [a] ∧
          a.path = outputDir ++ "/time_series_analysis.png" ∧
          a.subplots.length = min 3 (nc :: ncs).length ∧
          (∀ i c, (nc :: ncs)[i]? = some c → i < 3 →
            ∃ series, a.subplots[i]? = some (c.name, series) ∧
              (series.map Prod.fst).Pairwise (· < ·) ∧
              (∀ k, k ∈ series.map Prod.fst ↔
                some k ∈ colKeys (convertDateCol parse d)) ∧
              (∀ k m, (k, m) ∈ series →
                m = meanQ (groupVals (colKeys (convertDateCol parse d)) c.cells k))))) := by
  constructor
  · intro h
    rw [← head_filter_eq_find, List.head?_eq_none_iff] at h
    rw [createTimeSeriesPlots, h]
  · intro d hd
    rw [← head_filter_eq_find, List.head?_eq_some_iff] at hd
    obtain ⟨rest, hrest⟩ := hd
    constructor
    · intro hnum
      rw [createTimeSeriesPlots, hrest]
      simp [hnum]
    · intro nc ncs hnum
      have hart : createTimeSeriesPlots parse df outputDir =
          [⟨outputDir ++ "/time_series_analysis.png",
            ((nc :: ncs).take (min MAX_TIMESERIES_PLOTS (nc :: ncs).length)).map
              (fun c => (c.name, groupMeans (colKeys (convertDateCol parse d))
                c.cells))⟩] := by
        rw [createTimeSeriesPlots, hrest]
        simp [hnum]
      have hlen_take : (((nc :: ncs).take (min MAX_TIMESERIES_PLOTS
          (nc :: ncs).length)).map (fun c => (c.name,
            groupMeans (colKeys (convertDateCol parse d)) c.cells))).length =
          min MAX_TIMESERIES_PLOTS (nc :: ncs).length := by
        rw [List.length_map, List.length_take]
        have := min_le_right MAX_TIMESERIES_PLOTS (nc :: ncs).length
        omega
      refine ⟨_, hart, rfl, hlen_take, ?_⟩
      intro i c hi hi3
      have hiL : i < (nc :: ncs).length := by
        by_contra hcon
        push_neg at hcon
        rw [List.getElem?_eq_none hcon] at hi
        exact absurd hi (by simp)
      have hmin : min MAX_TIMESERIES_PLOTS (nc :: ncs).length =
          min 3 (nc :: ncs).length := rfl
      have hin : i < min MAX_TIMESERIES_PLOTS (nc :: ncs).length := by omega
      refine ⟨groupMeans (colKeys (convertDateCol parse d)) c.cells, ?_, ?_, ?_, ?_⟩
      · rw [List.getElem?_map, List.getElem?_take, if_pos hin, hi]
        rfl
      · rw [groupMeans_keys]
        exact groupKeys_pairwise _
      · intro k
        rw [groupMeans_keys, mem_groupKeys]
      · intro k m hkm
        rw [groupMeans, List.mem_map] at hkm
        obtain ⟨k0, _, hk0⟩ := hkm
        obtain ⟨rfl, rfl⟩ : k0 = k ∧ meanQ (groupVals (colKeys
            (convertDateCol parse d)) c.cells k0) = m := by
          constructor
          · exact congrArg Prod.fst hk0
          · exact congrArg Prod.snd hk0
        rfl

/-- Witness for C7: a dataset with an `OrderDate` text column (two parseable
dates) and a `qty` numeric column yields exactly one time-series artifact
with one subplot. -/
theorem c7_time_series_plots_witness :
    ((createTimeSeriesPlots
        (fun c => match c with
          | .str "d1" => some 10
          | .str "d2" => some 20
          | _ => none)
        (DataFrame.mk
          [⟨"OrderDate", .object, [some (.str "d1"), some (.str "d2")]⟩,
           ⟨"qty", .numeric, [some (.num 4), some (.num 6)]⟩]) "out").map
      TSArtifact.path) = ["out/time_series_analysis.png"] ∧
    ((createTimeSeriesPlots
        (fun c => match c with
          | .str "d1" => some 10
          | .str "d2" => some 20
          | _ => none)
        (DataFrame.mk
          [⟨"OrderDate", .object, [some (.str "d1"), some (.str "d2")]⟩,
           ⟨"qty", .numeric, [some (.num 4), some (.num 6)]⟩]) "out").map
      (fun a => a.subplots.length)) = [1] := by
  obtain ⟨-, h2⟩ := c7_time_series_plots
    (fun c => match c with
      | .str "d1" => some 10
      | .str "d2" => some 20
      | _ => none)
    (DataFrame.mk
      [⟨"OrderDate", .object, [some (.str "d1"), some (.str "d2")]⟩,
       ⟨"qty", .numeric, [some (.num 4), some (.num 6)]⟩]) "out"
  obtain ⟨-, h4⟩ := h2 ⟨"OrderDate", .object, [some (.str "d1"), some (.str "d2")]⟩ rfl
  obtain ⟨a, ha, hpath, hslen, -⟩ := h4
    ⟨"qty", .numeric, [some (.num 4), some (.num 6)]⟩ [] rfl
  rw [ha]
  simp [hpath, hslen]

/-! ## Symmetry and diagonal of the correlation matrix -/

theorem alignedPairs_self (xs : List (Option CellV)) :
    alignedPairs xs xs =
      (xs.filterMap (fun oc => oc.bind cellNum)).map (fun q => (q, q)) := by
  induction xs with
  | nil => rfl
  | cons oc xs ih =>
    cases h : oc.bind cellNum with
    | none => simpa [alignedPairs, List.filterMap_cons, h] using ih
    | some q => simpa [alignedPairs, List.filterMap_cons, h] using ih

theorem alignedPairs_swap (xs ys : List (Option CellV)) :
    alignedPairs ys xs = (alignedPairs xs ys).map Prod.swap := by
  rw [alignedPairs, alignedPairs, ← List.zip_swap, List.filterMap_map,
    List.map_filterMap]
  congr 1
  funext p
  cases h1 : p.1.bind cellNum <;> cases h2 : p.2.bind cellNum <;>
    simp [Function.comp, h1, h2]

theorem corrFromPairs_swap (ps : List (ℚ × ℚ)) :
    corrFromPairs (ps.map Prod.swap) = corrFromPairs ps := by
  by_cases h : ps.length = 0
  · rw [List.length_eq_zero] at h
    subst h
    rfl
  · simp only [corrFromPairs, List.length_map, h, if_false, List.map_map]
    have e1 : (Prod.fst ∘ Prod.swap : ℚ × ℚ → ℚ) = Prod.snd := rfl
    have e2 : (Prod.snd ∘ Prod.swap : ℚ × ℚ → ℚ) = Prod.fst := rfl
    rw [e1, e2]
    set my := (ps.map Prod.snd).sum / (ps.length : ℚ) with hmy
    set mx := (ps.map Prod.fst).sum / (ps.length : ℚ) with hmx
    have e3 : ((fun p : ℚ × ℚ => (p.1 - my) ^ 2) ∘ Prod.swap) =
        (fun p : ℚ × ℚ => (p.2 - my) ^ 2) := rfl
    have e4 : ((fun p : ℚ × ℚ => (p.2 - mx) ^ 2) ∘ Prod.swap) =
        (fun p : ℚ × ℚ => (p.1 - mx) ^ 2) := rfl
    have e5 : ((fun p : ℚ × ℚ => (p.1 - my) * (p.2 - mx)) ∘ Prod.swap) =
        (fun p : ℚ × ℚ => (p.2 - my) * (p.1 - mx)) := rfl
    rw [e3, e4, e5]
    have e6 : (fun p : ℚ × ℚ => (p.2 - my) * (p.1 - mx)) =
        (fun p : ℚ × ℚ => (p.1 - mx) * (p.2 - my)) := by
      funext p
      ring
    rw [e6, mul_comm ((ps.map (fun p : ℚ × ℚ => (p.2 - my) ^ 2)).sum)]

theorem corrStat_symm (x y : Column) : corrStat y x = corrStat x y := by
  rw [corrStat, corrStat, alignedPairs_swap x.cells y.cells, corrFromPairs_swap]

theorem centeredSS_nonneg (xs : List ℚ) : 0 ≤ centeredSS xs := by
  rw [centeredSS]
  apply List.sum_nonneg
  intro x hx
  rw [List.mem_map] at hx
  obtain ⟨y, _, rfl⟩ := hx
  positivity

theorem corrFromPairs_diag (xs : List ℚ) (h : centeredSS xs ≠ 0) :
    corrFromPairs (xs.map (fun q => (q, q))) =
      some ⟨centeredSS xs, centeredSS xs * centeredSS xs⟩ := by
  have hne : xs.length ≠ 0 := by
    intro hnil
    rw [List.length_eq_zero] at hnil
    subst hnil
    exact h rfl
  simp only [corrFromPairs, List.length_map, hne, if_false, List.map_map]
  have e1 : (Prod.fst ∘ (fun q : ℚ => (q, q))) = id := rfl
  have e2 : (Prod.snd ∘ (fun q : ℚ => (q, q))) = id := rfl
  rw [e1, e2, List.map_id]
  set m := xs.sum / (xs.length : ℚ) with hm
  have e3 : ((fun p : ℚ × ℚ => (p.1 - m) ^ 2) ∘ (fun q : ℚ => (q, q))) =
      (fun q : ℚ => (q - m) ^ 2) := rfl
  have e4 : ((fun p : ℚ × ℚ => (p.2 - m) ^ 2) ∘ (fun q : ℚ => (q, q))) =
      (fun q : ℚ => (q - m) ^ 2) := rfl
  have e5 : ((fun p : ℚ × ℚ => (p.1 - m) * (p.2 - m)) ∘ (fun q : ℚ => (q, q))) =
      (fun q : ℚ => (q - m) ^ 2) := by
    funext q
    simp [Function.comp]
    ring
  rw [e3, e4, e5]
  have hS : (xs.map (fun q : ℚ => (q - m) ^ 2)).sum = centeredSS xs := rfl
  rw [hS, if_neg (by rw [mul_self_eq_zero]; exact h)]

theorem corrStat_self {c : Column} (h : centeredSS (colNums c) ≠ 0) :
    corrStat c c =
      some ⟨centeredSS (colNums c),
        centeredSS (colNums c) * centeredSS (colNums c)⟩ := by
  rw [corrStat, alignedPairs_self]
  exact corrFromPairs_diag _ h

theorem corrEntryVal_diag {S : ℚ} (hpos : 0 < S) :
    CorrEntry.val ⟨S, S * S⟩ = 1 := by
  rw [CorrEntry.val]
  have hS : ((S : ℚ) : ℝ) > 0 := by exact_mod_cast hpos
  push_cast
  rw [Real.sqrt_mul_self (le_of_lt hS)]
  exact div_self (ne_of_gt hS)

theorem analyzeCorrelations_some {df : DataFrame} {m : CorrMatrix}
    (hm : analyzeCorrelations df = some m) :
    m = ⟨(numericColumns df).map Column.name,
      (numericColumns df).map (fun a => (numericColumns df).map
        (fun b => corrStat a b))⟩ := by
  by_cases h : (numericColumns df).length < 2
  · rw [analyzeCorrelations] at hm
    simp [h] at hm
  · rw [analyzeCorrelations] at hm
    simp only [h, if_false] at hm
    exact (Option.some_inj.mp hm).symm

theorem matrix_entry_symm (cols : List Column) (i j : ℕ) :
    ((cols.map (fun a => cols.map (fun b => corrStat a b))).getD i []).getD j none =
      ((cols.map (fun a => cols.map (fun b => corrStat a b))).getD j []).getD i none := by
  cases hi : cols[i]? with
  | none =>
    cases hj : cols[j]? with
    | none =>
      simp [List.getD_eq_getElem?_getD, List.getElem?_map, hi, hj]
    | some cj =>
      simp [List.getD_eq_getElem?_getD, List.getElem?_map, hi, hj]
  | some ci =>
    cases hj : cols[j]? with
    | none =>
      simp [List.getD_eq_getElem?_getD, List.getElem?_map, hi, hj]
    | some cj =>
      rw [matrix_entry_eq cols hi hj, matrix_entry_eq cols hj hi]
      exact (corrStat_symm ci cj).symm

/-- C6: whenever `analyze_correlations` returns a matrix, the matrix is
symmetric (entry-for-entry, by construction, not by rounding), and the
diagonal entry of every numeric column with nonzero variance has the exact
value 1. -/
theorem c6_matrix_symm_diag (df : DataFrame) (m : CorrMatrix)
    (hm : analyzeCorrelations df = some m) :
    (∀ i j, m.entry i j = m.entry j i) ∧
    (∀ i c, (numericColumns df)[i]? = some c → centeredSS (colNums c) ≠ 0 →
      (m.entry i i).map CorrEntry.val = some 1) := by
  obtain rfl := analyzeCorrelations_some hm
  constructor
  · intro i j
    exact matrix_entry_symm _ i j
  · intro i c hi hvar
    rw [CorrMatrix.entry]
    rw [matrix_entry_eq _ hi hi, corrStat_self hvar]
    rw [Option.map_some']
    rw [corrEntryVal_diag (lt_of_le_of_ne (centeredSS_nonneg _) (Ne.symm hvar))]

/-- A two-numeric-column dataset with nonzero variances. -/
def corrWitDf : DataFrame :=
  ⟨[⟨"a", .numeric, [some (.num 1), some (.num 2)]⟩,
    ⟨"b", .numeric, [some (.num 2), some (.num 4)]⟩]⟩

/-- The correlation matrix `analyze_correlations` produces on `corrWitDf`. -/
def corrWitM : CorrMatrix :=
  ⟨["a", "b"],
   [[corrStat ⟨"a", .numeric, [some (.num 1), some (.num 2)]⟩
       ⟨"a", .numeric, [some (.num 1), some (.num 2)]⟩,
     corrStat ⟨"a", .numeric, [some (.num 1), some (.num 2)]⟩
       ⟨"b", .numeric, [some (.num 2), some (.num 4)]⟩],
    [corrStat ⟨"b", .numeric, [some (.num 2), some (.num 4)]⟩
       ⟨"a", .numeric, [some (.num 1), some (.num 2)]⟩,
     corrStat ⟨"b", .numeric, [some (.num 2), some (.num 4)]⟩
       ⟨"b", .numeric, [some (.num 2), some (.num 4)]⟩]]⟩

/-- Witness for C6 at `corrWitDf`: the off-diagonal entries agree and the
first diagonal entry has the exact value 1. -/
theorem c6_matrix_symm_diag_witness :
    corrWitM.entry 0 1 = corrWitM.entry 1 0 ∧
    (corrWitM.entry 0 0).map CorrEntry.val = some 1 := by
  obtain ⟨hsym, hdiag⟩ := c6_matrix_symm_diag corrWitDf corrWitM rfl
  refine ⟨hsym 0 1, hdiag 0 ⟨"a", .numeric, [some (.num 1), some (.num 2)]⟩ rfl ?_⟩
  rw [show colNums ⟨"a", .numeric, [some (.num 1), some (.num 2)]⟩ = [1, 2] from rfl]
  norm_num [centeredSS]

/-! ## Claims about the Orchestrator -/

theorem renderSpecs_append {ε : Type} (render : ChartSpec → Except ε Unit)
    (l₁ l₂ : List ChartSpec) :
    renderSpecs render (l₁ ++ l₂) =
      match renderSpecs render l₁ with
      | .error e => .error e
      | .ok p₁ =>
        match renderSpecs render l₂ with
        | .error e => .error e
        | .ok p₂ => .ok (p₁ ++ p₂) := by
  induction l₁ with
  | nil =>
    rw [List.nil_append]
    cases h : renderSpecs render l₂ <;> rfl
  | cons s rest ih =>
    rw [List.cons_append, renderSpecs, renderSpecs]
    cases hr : render s
    · rfl
    · rw [ih]
      cases renderSpecs render rest <;> cases renderSpecs render l₂ <;> rfl

theorem renderSpecs_error {ε : Type} (render : ChartSpec → Except ε Unit)
    {pre post : List ChartSpec} {s : ChartSpec} {e : ε}
    (hpre : ∀ x ∈ pre, render x = .ok ())
    (hs : render s = .error e) :
    renderSpecs render (pre ++ s :: post) = .error e := by
  induction pre with
  | nil =>
    rw [List.nil_append, renderSpecs, hs]
  | cons x xs ih =>
    rw [List.cons_append, renderSpecs, hpre x (List.mem_cons_self x xs),
      ih (fun y hy => hpre y (List.mem_cons_of_mem x hy))]

theorem runCharts_eq {ε : Type} (render : ChartSpec → Except ε Unit)
    (parse : CellV → Option ℤ) (df : DataFrame) (outputDir : String) :
    runCharts render parse df outputDir =
      renderSpecs render (allPlans parse df outputDir) := by
  rw [allPlans, renderSpecs_append, renderSpecs_append, renderSpecs_append,
    runCharts]
  cases h1 : renderSpecs render (heatmapPlan df outputDir) <;>
    cases h2 : renderSpecs render (tsPlan parse df outputDir) <;>
      cases h3 : renderSpecs render (distPlan df outputDir) <;>
        cases h4 : renderSpecs render (catPlan df outputDir) <;>
          simp [List.append_assoc]

theorem summarizeCsv_eq {ε : Type} (fs : String → Option FileInfo)
    (render : ChartSpec → Except ε Unit) (parse : CellV → Option ℤ)
    (filePath outputDir : String) (df : DataFrame)
    (h : loadCsv fs filePath = .ok df) :
    summarizeCsv fs render parse filePath outputDir =
      match renderSpecs render (allPlans parse df outputDir) with
      | .error e => .error (.render e)
      | .ok cs => .ok ⟨analyzeDataQuality df, computeStatistics df,
          analyzeCorrelations df, cs⟩ := by
  rw [summarizeCsv, h, ← runCharts_eq]

/-- C1 (amended): if, during the visualization stage, the rendering backend
fails on one chart while every chart before it succeeded, `summarize_csv`
does not catch the failure: the run aborts with that error and no report is
produced.  (The source wraps no visualization branch in any handler.) -/
theorem c1_branch_failure_aborts {ε : Type} (fs : String → Option FileInfo)
    (render : ChartSpec → Except ε Unit) (parse : CellV → Option ℤ)
    (filePath outputDir : String) (df : DataFrame)
    (pre post : List ChartSpec) (s : ChartSpec) (e : ε)
    (hload : loadCsv fs filePath = .ok df)
    (hplan : allPlans parse df outputDir = pre ++ s :: post)
    (hpre : ∀ x ∈ pre, render x = .ok ())
    (hs : render s = .error e) :
    summarizeCsv fs render parse filePath outputDir = .error (.render e) := by
  rw [summarizeCsv_eq fs render parse filePath outputDir df hload, hplan,
    renderSpecs_error render hpre hs]

/-- The single-numeric-column dataset of the C1 scenario. -/
def branchFailDf : DataFrame := ⟨[⟨"x", .numeric, [some (.num 1), some (.num 2)]⟩]⟩

/-- A file system holding `branchFailDf` at "d.csv". -/
def branchFailFs : String → Option FileInfo :=
  fun p => if p = "d.csv" then some ⟨9, .ok branchFailDf⟩ else none

/-- A rendering backend that faults on the distributions chart only. -/
def branchFailRender : ChartSpec → Except String Unit :=
  fun s =>
    match s with
    | .distributions _ => .error "backend fault"
    | _ => .ok ()

/-- C1 counterexample: on `branchFailDf` only the distributions branch
fires; its rendering failure is not contained — `summarize_csv` returns the
backend error instead of a report with a shorter artifact list. -/
theorem c1_counterexample :
    distPlan branchFailDf "out" =
      [ChartSpec.distributions ⟨"out" ++ "/distributions.png",
        [some ("x", [1, 2]), none, none, none]⟩] ∧
    branchFailRender (ChartSpec.distributions ⟨"out" ++ "/distributions.png",
        [some ("x", [1, 2]), none, none, none]⟩) = .error "backend fault" ∧
    summarizeCsv branchFailFs branchFailRender (fun _ => none) "d.csv" "out" =
      .error (.render "backend fault") :=
  ⟨rfl, rfl, rfl⟩

/-- Witness for the amended C1 at the concrete scenario of the
counterexample. -/
theorem c1_branch_failure_aborts_witness :
    summarizeCsv branchFailFs branchFailRender (fun _ => none) "d.csv" "out" =
      .error (PipeError.render "backend fault") :=
  c1_branch_failure_aborts branchFailFs branchFailRender (fun _ => none)
    "d.csv" "out" branchFailDf [] []
    (ChartSpec.distributions ⟨"out" ++ "/distributions.png",
      [some ("x", [1, 2]), none, none, none]⟩) "backend fault"
    rfl rfl (fun x hx => absurd hx (List.not_mem_nil x)) rfl

end QDS
